import Mathlib

/-!
# Shallow embedding of the PBPD predictor (src/app.py, src/project/app.py)

The repository is a Streamlit app.  Floats are modelled as exact rationals
(all constants in the source are decimal literals, hence exactly
representable); a float value that may be non-finite (inf/NaN, as produced
by pandas division by zero) is modelled as `Option ℚ` with `none` standing
for the non-finite outcome.  A Python exception escaping a code path is
modelled as `Except String` with the exception name in the message.
The opaque pre-fitted regression models are parameters: `avail g` says the
file `model_g.pkl` exists, and `predict g v` is the scalar the model for
group `g` returns on feature vector `v`.
-/

set_option autoImplicit false

namespace PBPD

/-- ASCII apostrophe, used to spell user-visible messages. -/
def quo : Char := Char.ofNat 39

/-- Lower-casing of a Python string (`str.lower()`), per character. -/
def strToLower (s : String) : String := String.mk (s.toList.map Char.toLower)

/-- Upper-casing of a Python string (`str.upper()`), per character. -/
def strToUpper (s : String) : String := String.mk (s.toList.map Char.toUpper)

/-- Does `sub` occur at the start of `s`? (helper for substring containment) -/
def beginsWith : List Char → List Char → Bool
  | [], _ => true
  | _ :: _, [] => false
  | a :: as, b :: bs => a = b && beginsWith as bs

/-- Does `sub` occur anywhere in `s`? (Python `sub in s` on strings) -/
def containsSub (sub : List Char) : List Char → Bool
  | [] => beginsWith sub []
  | c :: cs => beginsWith sub (c :: cs) || containsSub sub cs

/-- Python substring test `sub in s`. -/
def strContains (s sub : String) : Bool := containsSub sub.toList s.toList

/-- Python float division `a / b`: raises `ZeroDivisionError` on `b = 0`
(src/app.py lines 50-52 run it at module level, uncaught). -/
def pydiv (a b : ℚ) : Except String ℚ :=
  if b = 0 then Except.error "ZeroDivisionError" else Except.ok (a / b)

/-- pandas column division (src/app.py lines 148-150): division by zero does
not raise, it silently yields a non-finite value (`inf` or `NaN`), here
`none`. -/
def pdiv (a b : ℚ) : Option ℚ :=
  if b = 0 then none else some (a / b)

/-- src/app.py lines 24-33 (identical to src/project/app.py lines 23-31):
resolve the sidebar material choice to a group string.  The sentinel
resolves by bulk density; an explicit choice is lower-cased. -/
def material_group (material_choice : String) (bulk_density : ℚ) : String :=
  if material_choice = "Auto (via density)" then
    if bulk_density < 3.5 then "al"
    else if 3.5 ≤ bulk_density ∧ bulk_density < 6 then "ti"
    else "ss"
  else strToLower material_choice

/-- src/app.py line 50: `span = (d90 - d10) / d50`. -/
def span_metric (d10 d50 d90 : ℚ) : Except String ℚ := pydiv (d90 - d10) d50

/-- src/app.py line 51: `r23 = d23 / layer_thickness`. -/
def r23_metric (d23 layer_thickness : ℚ) : Except String ℚ := pydiv d23 layer_thickness

/-- src/app.py line 52: `r34 = d34 / layer_thickness`. -/
def r34_metric (d34 layer_thickness : ℚ) : Except String ℚ := pydiv d34 layer_thickness

/-- src/app.py lines 55-66: the five advisory checks, in source order; each
appends its own message when its condition holds. -/
def warnings (span r23 r34 d23 layer_thickness hr : ℚ) : List String :=
  (if span < 0.8 ∨ span > 2.0 then ["Span is outside typical range (0.8–2.0)."] else []) ++
  (if r23 < 0.05 ∨ r23 > 1.2 then ["R23 is outside expected range."] else []) ++
  (if r34 < 0.05 ∨ r34 > 1.5 then ["R34 is outside expected range."] else []) ++
  (if d23 > layer_thickness then ["D[2,3] is greater than layer thickness — may cause bridging."] else []) ++
  (if hr > 1.4 then ["HR is high — flowability may be poor."] else [])

/-- src/project/app.py lines 54-61: the older variant runs only the first
three checks (no bridging check, no HR check). -/
def warnings_project (span r23 r34 : ℚ) : List String :=
  (if span < 0.8 ∨ span > 2.0 then ["Span is outside typical range (0.8–2.0)."] else []) ++
  (if r23 < 0.05 ∨ r23 > 1.2 then ["R23 is outside expected range."] else []) ++
  (if r34 < 0.05 ∨ r34 > 1.5 then ["R34 is outside expected range."] else [])

/-- src/app.py lines 74-82 (same shape in src/project/app.py lines 69-77 and
in the batch branch lines 157-165): the ordered feature vector per group;
`none` is the `st.error("Material model not found."); st.stop()` path. -/
def features (material_group : String) (r23 r34 span tap_density hr : ℚ) :
    Option (List ℚ) :=
  if material_group = "ti" then some [r23, span, tap_density]
  else if material_group = "ss" then some [r23, r34, span, tap_density, hr]
  else if material_group = "al" then some [r34, span, tap_density]
  else none

/-- src/app.py line 129: the group-specific message shown when the model
file for the resolved group is missing. -/
def modelNotFoundMsg (material_group : String) : String :=
  "Model for " ++ String.singleton quo ++ strToUpper material_group ++
    String.singleton quo ++ " not found. Make sure the model file exists."

/-- The scalar fields of the interactive form (src/app.py lines 20-48). -/
structure InteractiveInput where
  material_choice : String
  bulk_density : ℚ
  d10 : ℚ
  d50 : ℚ
  d90 : ℚ
  tap_density : ℚ
  hr : ℚ
  d23 : ℚ
  d34 : ℚ
  layer_thickness : ℚ

/-- The constraints the `st.number_input` widgets enforce on an interactive
submission (src/app.py lines 22, 45, 48: `min_value=0.0` on bulk density,
`min_value=1.0` on HR, `min_value=0.1` on layer thickness; no other field
has a bound). -/
def ValidInput (inp : InteractiveInput) : Prop :=
  0 ≤ inp.bulk_density ∧ 1 ≤ inp.hr ∧ 1/10 ≤ inp.layer_thickness

instance (inp : InteractiveInput) : Decidable (ValidInput inp) := by
  unfold ValidInput; infer_instance

/-- Outcome of one interactive prediction attempt: either a predicted value
was displayed, or an `st.error` message was. -/
inductive InteractiveResult where
  | success (prediction : ℚ)
  | errorMsg (msg : String)
deriving DecidableEq

/-- src/app.py lines 24-129, the interactive flow: resolve the group, compute
the three metrics at module level (Python division, uncaught), then in the
`try` block load the model (line 73; `FileNotFoundError` is caught at line
128 and shown as the group-specific message), build the feature vector and
call `predict`.  `avail g` says `model_g.pkl` exists. -/
def interactiveFlow (avail : String → Bool) (predict : String → List ℚ → ℚ)
    (inp : InteractiveInput) : Except String InteractiveResult := do
  let mg := material_group inp.material_choice inp.bulk_density
  let span ← span_metric inp.d10 inp.d50 inp.d90
  let r23 ← r23_metric inp.d23 inp.layer_thickness
  let r34 ← r34_metric inp.d34 inp.layer_thickness
  if avail (strToLower mg) then
    match features mg r23 r34 span inp.tap_density inp.hr with
    | some fs => Except.ok (InteractiveResult.success (predict mg fs))
    | none => Except.ok (InteractiveResult.errorMsg "Material model not found.")
  else
    Except.ok (InteractiveResult.errorMsg (modelNotFoundMsg mg))

/-- The scalar fields of the older variant's form (src/project/app.py lines
18-48): `Span` is its own `number_input` widget (line 41), alongside D10,
D50, D90 which it is NOT derived from. -/
structure ProjectInput where
  material_choice : String
  bulk_density : ℚ
  d10 : ℚ
  d50 : ℚ
  d90 : ℚ
  span : ℚ
  tap_density : ℚ
  hr : ℚ
  d23 : ℚ
  d34 : ℚ
  layer_thickness : ℚ

/-- src/project/app.py lines 23-85, the older variant's flow: the span used
for warnings and features is the user-entered `inp.span`; only r23 and r34
are computed (lines 50-51). -/
def projectFlow (avail : String → Bool) (predict : String → List ℚ → ℚ)
    (inp : ProjectInput) : Except String InteractiveResult := do
  let mg := material_group inp.material_choice inp.bulk_density
  let r23 ← r23_metric inp.d23 inp.layer_thickness
  let r34 ← r34_metric inp.d34 inp.layer_thickness
  if avail mg then
    match features mg r23 r34 inp.span inp.tap_density inp.hr with
    | some fs => Except.ok (InteractiveResult.success (predict mg fs))
    | none => Except.ok (InteractiveResult.errorMsg "Material model not found.")
  else
    Except.ok (InteractiveResult.errorMsg (modelNotFoundMsg mg))

/-- One CSV row of the batch flow with the required columns of src/app.py
lines 138-142 (there is no bulk-density column). -/
structure CsvRow where
  D10 : ℚ
  D50 : ℚ
  D90 : ℚ
  D23 : ℚ
  D34 : ℚ
  Tap : ℚ
  HR : ℚ
  LT : ℚ
  Material : String

/-- src/app.py line 148: `df['Span'] = (df['D90_µm'] - df['D10_µm']) / df['D50_µm']`
(pandas division: zero denominator gives a non-finite value, `none`). -/
def rowSpan (r : CsvRow) : Option ℚ := pdiv (r.D90 - r.D10) r.D50

/-- src/app.py line 149: `df['R23'] = df['D[2,3]'] / df['Effective_Layer_Thickness_µm']`. -/
def rowR23 (r : CsvRow) : Option ℚ := pdiv r.D23 r.LT

/-- src/app.py line 150: `df['R34'] = df['D[3,4]'] / df['Effective_Layer_Thickness_µm']`. -/
def rowR34 (r : CsvRow) : Option ℚ := pdiv r.D34 r.LT

/-- src/app.py lines 154-165: lower-case the Material field and classify by
substring containment, first match wins: `'ti'`, then `'ss' or '316'`,
then `'al'`; otherwise no model (`model_used = None`). -/
def classifyMaterial (material : String) : Option String :=
  let mat := strToLower material
  if strContains mat "ti" then some "ti"
  else if strContains mat "ss" || strContains mat "316" then some "ss"
  else if strContains mat "al" then some "al"
  else none

/-- src/app.py lines 157-165: the per-row feature list built for the matched
group; entries are pandas column values, hence possibly non-finite. -/
def rowFeatures (g : String) (r : CsvRow) : List (Option ℚ) :=
  if g = "ti" then [rowR23 r, rowSpan r, some r.Tap]
  else if g = "ss" then [rowR23 r, rowR34 r, rowSpan r, some r.Tap, some r.HR]
  else [rowR34 r, rowSpan r, some r.Tap]

/-- src/app.py lines 153-175, one iteration of the batch loop.  A matched row
loads the model (line 168; a missing file raises an uncaught
`FileNotFoundError`), appends the prediction at line 170, falls through the
`if model_used:` block and appends the SAME prediction AGAIN at lines
174-175.  An unmatched row appends NaN (`none`) and `continue`s past the
trailing append. -/
def batchStep (avail : String → Bool) (predict : String → List (Option ℚ) → ℚ)
    (r : CsvRow) (preds : List (Option ℚ)) : Except String (List (Option ℚ)) :=
  match classifyMaterial r.Material with
  | some g =>
      if avail g then
        let p := predict g (rowFeatures g r)
        Except.ok (preds ++ [some p, some p])
      else
        Except.error ("FileNotFoundError: model_" ++ g ++ ".pkl")
  | none => Except.ok (preds ++ [none])

/-- src/app.py lines 152-175: the batch loop over all rows, accumulating the
`predictions` list; an uncaught exception in any iteration aborts the whole
batch. -/
def batchLoop (avail : String → Bool) (predict : String → List (Option ℚ) → ℚ) :
    List CsvRow → List (Option ℚ) → Except String (List (Option ℚ))
  | [], preds => Except.ok preds
  | r :: rs, preds =>
      match batchStep avail predict r preds with
      | Except.ok preds' => batchLoop avail predict rs preds'
      | Except.error e => Except.error e

/-- src/app.py line 177: `df['Predicted_PBPD_%'] = predictions`.  pandas
raises `ValueError` when the list length differs from the number of rows. -/
def assignColumn (rows : List CsvRow) (preds : List (Option ℚ)) :
    Except String (List (Option ℚ)) :=
  if preds.length = rows.length then Except.ok preds
  else Except.error "ValueError: Length of values does not match length of index"

/-- src/app.py lines 152-177: run the batch loop then assign the prediction
column; the result is the `Predicted_PBPD_%` column, one entry per row, or
the uncaught exception that aborted the batch. -/
def batchPredict (avail : String → Bool) (predict : String → List (Option ℚ) → ℚ)
    (rows : List CsvRow) : Except String (List (Option ℚ)) := do
  let preds ← batchLoop avail predict rows []
  assignColumn rows preds

/-! ## Theorems for the claims -/

/-- C1: for every resolved material group the feature vector is exactly the
ordered list of the §4.3 table — Titanium `[R23, Span, TapDensity]`,
StainlessSteel `[R23, R34, Span, TapDensity, HR]`, Aluminum
`[R34, Span, TapDensity]` — in both the interactive branch (`features`) and
the batch branch (`rowFeatures`); in particular for StainlessSteel with
R23=0.5, R34=0.7, Span=1.14, TapDensity=5.0, HR=1.2 the vector is
[0.5, 0.7, 1.14, 5.0, 1.2]. -/
theorem c1_feature_vector_order (r23 r34 span tap_density hr : ℚ) (r : CsvRow) :
    features "ti" r23 r34 span tap_density hr = some [r23, span, tap_density] ∧
    features "ss" r23 r34 span tap_density hr = some [r23, r34, span, tap_density, hr] ∧
    features "al" r23 r34 span tap_density hr = some [r34, span, tap_density] ∧
    rowFeatures "ti" r = [rowR23 r, rowSpan r, some r.Tap] ∧
    rowFeatures "ss" r = [rowR23 r, rowR34 r, rowSpan r, some r.Tap, some r.HR] ∧
    rowFeatures "al" r = [rowR34 r, rowSpan r, some r.Tap] ∧
    features "ss" (0.5) (0.7) (1.14) (5.0) (1.2) =
      some [0.5, 0.7, 1.14, 5.0, 1.2] :=
  ⟨rfl, rfl, rfl, rfl, rfl, rfl, rfl⟩

/-- C2: with the "Auto (via density)" sentinel, every bulk density ≥ 0
resolves to exactly one group, with half-open bounds: < 3.5 → Aluminum
("al"), 3.5 ≤ · < 6 → Titanium ("ti"), ≥ 6 → StainlessSteel ("ss"); the
boundary values 3.5 and 6.0 resolve to "ti" and "ss". -/
theorem c2_auto_resolution (bd : ℚ) (_h : 0 ≤ bd) :
    (material_group "Auto (via density)" bd = "al" ↔ bd < 3.5) ∧
    (material_group "Auto (via density)" bd = "ti" ↔ 3.5 ≤ bd ∧ bd < 6) ∧
    (material_group "Auto (via density)" bd = "ss" ↔ 6 ≤ bd) ∧
    material_group "Auto (via density)" (3.5) = "ti" ∧
    material_group "Auto (via density)" (6.0) = "ss" := by
  have e35 : material_group "Auto (via density)" (3.5) = "ti" := by
    norm_num [material_group]
  have e6 : material_group "Auto (via density)" (6.0) = "ss" := by
    norm_num [material_group]
  by_cases h1 : bd < 3.5
  · have e : material_group "Auto (via density)" bd = "al" := by
      simp [material_group, h1]
    rw [e]
    exact ⟨iff_of_true rfl h1,
      iff_of_false (by decide) (fun hc => absurd hc.1 (not_le.mpr h1)),
      iff_of_false (by decide) (fun hc => by
        have : (3.5 : ℚ) ≤ bd := le_trans (by norm_num) hc
        exact absurd this (not_le.mpr h1)),
      e35, e6⟩
  · have h1' : (3.5 : ℚ) ≤ bd := not_lt.mp h1
    by_cases h2 : bd < 6
    · have e : material_group "Auto (via density)" bd = "ti" := by
        simp [material_group, h1, h1', h2]
      rw [e]
      exact ⟨iff_of_false (by decide) (fun hc => absurd hc (not_lt.mpr h1')),
        iff_of_true rfl ⟨h1', h2⟩,
        iff_of_false (by decide) (fun hc => absurd h2 (not_lt.mpr hc)),
        e35, e6⟩
    · have h2' : (6 : ℚ) ≤ bd := not_lt.mp h2
      have e : material_group "Auto (via density)" bd = "ss" := by
        simp [material_group, h1, h2]
      rw [e]
      exact ⟨iff_of_false (by decide) (fun hc => absurd hc (not_lt.mpr h1')),
        iff_of_false (by decide) (fun hc => absurd hc.2 (not_lt.mpr h2')),
        iff_of_true rfl h2',
        e35, e6⟩

/-- Witness for C2 at the concrete bulk density 4.0 (which satisfies
3.5 ≤ 4 < 6, hence Titanium). -/
theorem c2_auto_resolution_witness : material_group "Auto (via density)" 4 = "ti" :=
  ((c2_auto_resolution 4 (by norm_num)).2.1).mpr (by norm_num)

/-- C6: batch classification lower-cases the Material field and matches
substrings with the fixed priority ti, then ss/316, then al, else
unmatched; "SS316L" → "ss" and "Ti-6Al-4V" → "ti" (the "ti" check runs
before any "al" check). -/
theorem c6_substring_priority (material : String) :
    (classifyMaterial material = some "ti" ↔
      strContains (strToLower material) "ti" = true) ∧
    (classifyMaterial material = some "ss" ↔
      strContains (strToLower material) "ti" = false ∧
      (strContains (strToLower material) "ss" = true ∨
        strContains (strToLower material) "316" = true)) ∧
    (classifyMaterial material = some "al" ↔
      strContains (strToLower material) "ti" = false ∧
      strContains (strToLower material) "ss" = false ∧
      strContains (strToLower material) "316" = false ∧
      strContains (strToLower material) "al" = true) ∧
    (classifyMaterial material = none ↔
      strContains (strToLower material) "ti" = false ∧
      strContains (strToLower material) "ss" = false ∧
      strContains (strToLower material) "316" = false ∧
      strContains (strToLower material) "al" = false) ∧
    classifyMaterial "SS316L" = some "ss" ∧
    classifyMaterial "Ti-6Al-4V" = some "ti" := by
  refine ⟨?_, ?_, ?_, ?_, by decide, by decide⟩ <;>
    cases hti : strContains (strToLower material) "ti" <;>
    cases hss : strContains (strToLower material) "ss" <;>
    cases h316 : strContains (strToLower material) "316" <;>
    cases hal : strContains (strToLower material) "al" <;>
    simp [classifyMaterial, hti, hss, h316, hal]

/-- C9: the interactive widgets enforce LayerThickness ≥ 0.1 and HR ≥ 1.0,
so R23 and R34 always have a non-zero denominator and succeed; no analogous
lower bound protects D50: a valid submission with D50 = 0 exists (and its
span computation raises). -/
theorem c9_layer_thickness_bound :
    (∀ inp : InteractiveInput, ValidInput inp →
      1 ≤ inp.hr ∧
      1/10 ≤ inp.layer_thickness ∧
      inp.layer_thickness ≠ 0 ∧
      r23_metric inp.d23 inp.layer_thickness =
        Except.ok (inp.d23 / inp.layer_thickness) ∧
      r34_metric inp.d34 inp.layer_thickness =
        Except.ok (inp.d34 / inp.layer_thickness)) ∧
    (∃ inp : InteractiveInput, ValidInput inp ∧ inp.d50 = 0 ∧
      span_metric inp.d10 inp.d50 inp.d90 = Except.error "ZeroDivisionError") := by
  constructor
  · intro inp hv
    obtain ⟨-, hhr, hlt⟩ := hv
    have hne : inp.layer_thickness ≠ 0 := by
      intro hc; rw [hc] at hlt; norm_num at hlt
    exact ⟨hhr, hlt, hne, by simp [r23_metric, pydiv, hne], by simp [r34_metric, pydiv, hne]⟩
  · refine ⟨⟨"Ti", 0, 15, 0, 55, 5, 1, 30, 42, 60⟩, ?_, rfl, ?_⟩
    · exact ⟨le_refl 0, le_refl 1, by norm_num⟩
    · simp [span_metric, pydiv]

/-- Witness for C9 at a concrete valid submission (layer thickness 60,
HR 1.2): R23 evaluates to 30/60 = 1/2. -/
theorem c9_layer_thickness_bound_witness :
    r23_metric 30 60 = Except.ok (1/2) := by
  have h := (c9_layer_thickness_bound.1 ⟨"Ti", 0, 15, 35, 55, 5, 6/5, 30, 42, 60⟩
    ⟨le_refl 0, by norm_num, by norm_num⟩).2.2.2.1
  rw [h]
  norm_num

/-- C10: batch routing is a function of the Material text alone — a row
whose lower-cased Material contains none of "ti", "ss", "316", "al"
(e.g. "Auto") is unmatched and receives the missing-prediction marker,
never a density-based resolution (the batch row has no density field; the
density thresholds live only in the interactive `material_group`). -/
theorem c10_batch_ignores_density :
    (∀ material : String,
      strContains (strToLower material) "ti" = false →
      strContains (strToLower material) "ss" = false →
      strContains (strToLower material) "316" = false →
      strContains (strToLower material) "al" = false →
      classifyMaterial material = none) ∧
    classifyMaterial "Auto" = none ∧
    (∀ (avail : String → Bool) (predict : String → List (Option ℚ) → ℚ)
        (r : CsvRow) (preds : List (Option ℚ)),
      classifyMaterial r.Material = none →
      batchStep avail predict r preds = Except.ok (preds ++ [none])) ∧
    (∀ r1 r2 : CsvRow, r1.Material = r2.Material →
      classifyMaterial r1.Material = classifyMaterial r2.Material) := by
  refine ⟨?_, by decide, ?_, ?_⟩
  · intro material hti hss h316 hal
    simp [classifyMaterial, hti, hss, h316, hal]
  · intro avail predict r preds hnone
    simp [batchStep, hnone]
  · intro r1 r2 hmat
    rw [hmat]

/-- Witness for C10: a concrete batch row with Material "Auto" (and bulk
density nowhere in sight) gets the missing-prediction marker appended. -/
theorem c10_batch_ignores_density_witness :
    batchStep (fun _ => true) (fun _ _ => 0)
      ⟨15, 35, 55, 30, 42, 5, 6/5, 60, "Auto"⟩ [] = Except.ok [none] :=
  c10_batch_ignores_density.2.2.1 (fun _ => true) (fun _ _ => 0)
    ⟨15, 35, 55, 30, 42, 5, 6/5, 60, "Auto"⟩ [] (by decide)

/-- Older-variant submission for C3: D10=15, D50=35, D90=55, but the Span
widget (src/project/app.py line 41) set to 2, material "Ti". -/
def c3inp : ProjectInput := ⟨"Ti", 9/2, 15, 35, 55, 2, 5, 6/5, 30, 42, 60⟩

/-- C3 counterexample: in src/project/app.py the span used in the feature
vector is the user-entered widget value, not recomputed from the sample.
With D10=15, D50=35, D90=55 and the Span widget at 2, the "ti" feature
vector's span slot (index 1, read back by the predict stub) is 2, although
(D90 − D10)/D50 = 40/35 ≠ 2. -/
theorem c3_counterexample :
    projectFlow (fun _ => true) (fun _ fs => fs.getD 1 0) c3inp =
      Except.ok (InteractiveResult.success 2) ∧
    (55 - 15 : ℚ) / 35 ≠ 2 := by
  constructor
  · have h : material_group "Ti" (9/2) = "ti" := by decide
    simp [projectFlow, c3inp, h, r23_metric, r34_metric, pydiv, bind,
      Except.bind, features, List.getD]
  · norm_num

/-- C3 amended: in src/app.py the metrics are recomputed as pure functions
of the sample (Span = (D90−D10)/D50, R23 = D[2,3]/LT, R34 = D[3,4]/LT, with
40/35 = 8/7 on the example) and the interactive feature vector uses those
computed values; in src/project/app.py, R23 and R34 are recomputed but the
span used in the feature vector is the separate Span widget value. -/
theorem c3_metrics_recomputed :
    (∀ d10 d50 d90 d23 d34 lt : ℚ, d50 ≠ 0 → lt ≠ 0 →
      span_metric d10 d50 d90 = Except.ok ((d90 - d10) / d50) ∧
      r23_metric d23 lt = Except.ok (d23 / lt) ∧
      r34_metric d34 lt = Except.ok (d34 / lt)) ∧
    span_metric 15 35 55 = Except.ok (8/7) ∧
    (∀ (inp : InteractiveInput) (predict : String → List ℚ → ℚ),
      inp.d50 ≠ 0 → inp.layer_thickness ≠ 0 →
      material_group inp.material_choice inp.bulk_density = "ti" →
      interactiveFlow (fun _ => true) predict inp =
        Except.ok (InteractiveResult.success (predict "ti"
          [inp.d23 / inp.layer_thickness,
           (inp.d90 - inp.d10) / inp.d50,
           inp.tap_density]))) ∧
    (∀ (inp : ProjectInput) (predict : String → List ℚ → ℚ),
      inp.layer_thickness ≠ 0 →
      material_group inp.material_choice inp.bulk_density = "ti" →
      projectFlow (fun _ => true) predict inp =
        Except.ok (InteractiveResult.success (predict "ti"
          [inp.d23 / inp.layer_thickness, inp.span, inp.tap_density]))) := by
  refine ⟨?_, ?_, ?_, ?_⟩
  · intro d10 d50 d90 d23 d34 lt h50 hlt
    exact ⟨by simp [span_metric, pydiv, h50], by simp [r23_metric, pydiv, hlt],
      by simp [r34_metric, pydiv, hlt]⟩
  · norm_num [span_metric, pydiv]
  · intro inp predict h50 hlt hmg
    simp [interactiveFlow, hmg, span_metric, r23_metric, r34_metric, pydiv,
      h50, hlt, bind, Except.bind, features, strToLower]
  · intro inp predict hlt hmg
    simp [projectFlow, hmg, r23_metric, r34_metric, pydiv, hlt, bind,
      Except.bind, features]

/-- Witness for C3 (amended) at the spec's example sample D10=15, D50=35,
D90=55 (denominators non-zero). -/
theorem c3_metrics_recomputed_witness :
    span_metric 15 35 55 = Except.ok ((55 - 15) / 35) :=
  (c3_metrics_recomputed.1 15 35 55 30 42 60 (by norm_num) (by norm_num)).1

/-- Batch CSV row for C4 with a zero D50 (D10=15, D90=55, D[2,3]=30,
D[3,4]=42, Tap 5, HR 1.2, layer thickness 60, Material "Ti"). -/
def c4row : CsvRow := ⟨15, 0, 55, 30, 42, 5, 6/5, 60, "Ti"⟩

/-- C4 (code bug, evaluated at the failing input): for a batch row with
D50 = 0 the pandas span is non-finite (`none`), that non-finite value sits
inside the feature vector, and the batch loop still hands the vector to the
model and records its prediction — no ComputationError of any kind is
surfaced. -/
theorem c4_zero_d50_reaches_model :
    rowSpan c4row = none ∧
    rowFeatures "ti" c4row = [some (1/2), none, some 5] ∧
    batchStep (fun _ => true) (fun _ _ => 37) c4row [] =
      Except.ok [some 37, some 37] := by
  refine ⟨?_, ?_, ?_⟩
  · norm_num [rowSpan, pdiv, c4row]
  · norm_num [rowFeatures, rowSpan, rowR23, pdiv, c4row]
  · have h : classifyMaterial "Ti" = some "ti" := by decide
    simp [batchStep, c4row, h]

/-- Batch row whose Material the spec calls unroutable — but "unknown_alloy"
contains "al". -/
def c5rowU : CsvRow := ⟨15, 35, 55, 30, 42, 5, 6/5, 60, "unknown_alloy"⟩

/-- Batch row routed to StainlessSteel via "ss"/"316". -/
def c5rowS : CsvRow := ⟨20, 40, 60, 32, 44, 6, 13/10, 50, "SS316L"⟩

/-- C5 (code bug, evaluated at the failing input): (1) "unknown_alloy" is in
fact routed (it contains "al"), so it gets a prediction, not NaN; (2) every
matched row's prediction is appended twice (src/app.py lines 170 and
174-175), so two rows yield four predictions and the column assignment at
line 177 raises ValueError, aborting the whole batch instead of giving each
row one positional value. -/
theorem c5_batch_double_append :
    classifyMaterial "unknown_alloy" = some "al" ∧
    batchLoop (fun _ => true) (fun _ _ => 42) [c5rowU, c5rowS] [] =
      Except.ok [some 42, some 42, some 42, some 42] ∧
    batchPredict (fun _ => true) (fun _ _ => 42) [c5rowU, c5rowS] =
      Except.error "ValueError: Length of values does not match length of index" := by
  have hU : classifyMaterial "unknown_alloy" = some "al" := by decide
  have hS : classifyMaterial "SS316L" = some "ss" := by decide
  refine ⟨hU, ?_, ?_⟩
  · simp [batchLoop, batchStep, c5rowU, c5rowS, hU, hS]
  · simp [batchPredict, batchLoop, batchStep, c5rowU, c5rowS, hU, hS,
      assignColumn, bind, Except.bind]

/-- Older-variant warning check for C7's sample: Span=2.5 (out of range),
R23=0.5 and R34=0.7 (in range); HR=1.5 plays no role because
src/project/app.py has no HR check (nor a bridging check), so the sample
yields exactly ONE warning, not the claimed two. -/
theorem c7_counterexample :
    warnings_project (2.5) (0.5) (0.7) =
      ["Span is outside typical range (0.8–2.0)."] ∧
    (warnings_project (2.5) (0.5) (0.7)).length ≠ 2 := by
  have e : warnings_project (2.5) (0.5) (0.7) =
      ["Span is outside typical range (0.8–2.0)."] := by
    norm_num [warnings_project]
  exact ⟨e, by rw [e]; norm_num⟩

/-- C7 amended: in src/app.py the five checks are independent — on a sample
with Span=2.5, HR=1.5 and every other metric in range, exactly the span and
flowability warnings fire, and the span/HR messages each appear iff their
own condition holds; src/project/app.py implements only the first three
checks, so the same sample yields exactly the span warning there. -/
theorem c7_warning_checks (r23 r34 d23 lt : ℚ)
    (h1 : (0.05 : ℚ) ≤ r23) (h2 : r23 ≤ 1.2)
    (h3 : (0.05 : ℚ) ≤ r34) (h4 : r34 ≤ 1.5) (h5 : d23 ≤ lt) :
    warnings (2.5) r23 r34 d23 lt (1.5) =
      ["Span is outside typical range (0.8–2.0).",
       "HR is high — flowability may be poor."] ∧
    warnings_project (2.5) r23 r34 =
      ["Span is outside typical range (0.8–2.0)."] ∧
    (∀ span hr : ℚ,
      ("Span is outside typical range (0.8–2.0)." ∈ warnings span r23 r34 d23 lt hr ↔
        span < 0.8 ∨ span > 2.0) ∧
      ("HR is high — flowability may be poor." ∈ warnings span r23 r34 d23 lt hr ↔
        hr > 1.4)) := by
  have n1 : ¬ (r23 < 0.05 ∨ r23 > 1.2) := by
    rintro (hc | hc) <;> [exact absurd hc (not_lt.mpr h1); exact absurd hc (not_lt.mpr h2)]
  have n2 : ¬ (r34 < 0.05 ∨ r34 > 1.5) := by
    rintro (hc | hc) <;> [exact absurd hc (not_lt.mpr h3); exact absurd hc (not_lt.mpr h4)]
  have n3 : ¬ (d23 > lt) := not_lt.mpr h5
  refine ⟨?_, ?_, ?_⟩
  · simp [warnings, n1, n2, n3]
    norm_num
  · simp [warnings_project, n1, n2]
    norm_num
  · intro span hr
    constructor
    · by_cases hsp : span < 0.8 ∨ span > 2.0 <;> by_cases hhr : hr > 1.4 <;>
        simp [warnings, n1, n2, n3, hsp, hhr]
    · by_cases hsp : span < 0.8 ∨ span > 2.0 <;> by_cases hhr : hr > 1.4 <;>
        simp [warnings, n1, n2, n3, hsp, hhr]

/-- Witness for C7 (amended) at the in-range metrics R23=0.5, R34=0.7,
D[2,3]=30 ≤ layer thickness 60. -/
theorem c7_warning_checks_witness :
    warnings (2.5) (0.5) (0.7) 30 60 (1.5) =
      ["Span is outside typical range (0.8–2.0).",
       "HR is high — flowability may be poor."] :=
  (c7_warning_checks (0.5) (0.7) 30 60 (by norm_num) (by norm_num)
    (by norm_num) (by norm_num) (by norm_num)).1

/-- Batch row routed to Titanium via "ti" (first check wins). -/
def c8rowT : CsvRow := ⟨15, 35, 55, 30, 42, 5, 6/5, 60, "Ti-6Al-4V"⟩

/-- Batch row routed to Aluminum via "al"; its model exists in the C8
scenario, yet it never gets a prediction. -/
def c8rowA : CsvRow := ⟨20, 40, 60, 32, 44, 6, 13/10, 50, "AlSi10Mg"⟩

/-- C8 counterexample: with the Titanium model file missing (and all others
present), a batch whose first row routes to Titanium aborts whole with an
uncaught FileNotFoundError — the subsequent Aluminum row is never
processed, refuting "the batch flow continues with subsequent rows". -/
theorem c8_counterexample :
    batchPredict (fun g => g != "ti") (fun _ _ => 42) [c8rowT, c8rowA] =
      Except.error "FileNotFoundError: model_ti.pkl" := by
  have hT : classifyMaterial "Ti-6Al-4V" = some "ti" := by decide
  simp [batchPredict, batchLoop, batchStep, c8rowT, hT, bind, Except.bind]

/-- C8 amended: a missing model for the resolved group is terminal for the
single interactive prediction and is surfaced there as the named,
group-specific message ("Model for 'TI' not found. ..."); in the batch flow
the load is not guarded, so the first affected row kills the entire batch
with an uncaught FileNotFoundError, regardless of the remaining rows. -/
theorem c8_model_missing (avail : String → Bool)
    (predict : String → List ℚ → ℚ) (inp : InteractiveInput) (mg : String)
    (hmg : material_group inp.material_choice inp.bulk_density = mg)
    (h50 : inp.d50 ≠ 0) (hlt : inp.layer_thickness ≠ 0)
    (hav : avail (strToLower mg) = false) :
    interactiveFlow avail predict inp =
      Except.ok (InteractiveResult.errorMsg (modelNotFoundMsg mg)) ∧
    (∀ (predictB : String → List (Option ℚ) → ℚ) (r : CsvRow)
        (rs : List CsvRow) (preds : List (Option ℚ)) (g : String),
      classifyMaterial r.Material = some g →
      avail g = false →
      batchLoop avail predictB (r :: rs) preds =
        Except.error ("FileNotFoundError: model_" ++ g ++ ".pkl")) := by
  constructor
  · simp [interactiveFlow, hmg, span_metric, r23_metric, r34_metric, pydiv,
      h50, hlt, hav, bind, Except.bind]
  · intro predictB r rs preds g hg hgav
    simp [batchLoop, batchStep, hg, hgav]

/-- Witness for C8 (amended): with no model files at all and material "Ti",
the interactive flow shows the Titanium-specific message. -/
theorem c8_model_missing_witness :
    interactiveFlow (fun _ => false) (fun _ _ => 0)
      ⟨"Ti", 9/2, 15, 35, 55, 5, 6/5, 30, 42, 60⟩ =
      Except.ok (InteractiveResult.errorMsg (modelNotFoundMsg "ti")) :=
  (c8_model_missing (fun _ => false) (fun _ _ => 0)
    ⟨"Ti", 9/2, 15, 35, 55, 5, 6/5, 30, 42, 60⟩ "ti"
    (by decide) (by norm_num) (by norm_num) rfl).1

end PBPD
